import Mathlib

/-!
# Verification of the FTX WebSocket connector (src/ws/ftx_websocket.rs)

A shallow embedding of the connector's session logic. The async socket is
modelled by an explicit state (`WsState`) holding the list of inbound items
still to arrive (`inbound`), the wire messages sent so far (`sent`), the
pending event buffer (`buf`), the active channel list (`channels`) and the
authentication flag. Each Rust method becomes a pure function threading this
state; an async suspension with no further input is the `blocked` outcome.

The payload types (`Trade`, `OrderbookData`, ...) live in `models.rs`, which
only declares them; here they are opaque wrappers, since the connector never
inspects their contents.
-/

namespace FtxWs

/-- An instrument / market identifier (`Symbol` in `models.rs`). -/
abbrev Symbol := String

/-- Opaque trade payload. -/
structure Trade where
  val : Nat
deriving DecidableEq

/-- Opaque orderbook payload. -/
structure OrderbookData where
  val : Nat
deriving DecidableEq

/-- Opaque fill payload. -/
structure Fill where
  val : Nat
deriving DecidableEq

/-- Opaque ticker payload. -/
structure Ticker where
  val : Nat
deriving DecidableEq

/-- Opaque order payload. -/
structure Order where
  val : Nat
deriving DecidableEq

/-- `WsChannel`: the subscription channels of `ftx_websocket.rs`. -/
inductive WsChannel where
  | Orderbook (symbol : Symbol)
  | Trades (symbol : Symbol)
  | Ticker (symbol : Symbol)
  | Fills
  | Orders
deriving DecidableEq

/-- `WsMessageType`: the inbound message kinds distinguished by the client
(`subscribed`, `unsubscribed`, `pong`, plus unsolicited update-like kinds). -/
inductive WsMessageType where
  | Subscribed
  | Unsubscribed
  | Update
  | Info
  | Error
  | Pong
deriving DecidableEq

/-- `WsResponseData`: the optional `data` payload of an inbound response. -/
inductive WsResponseData where
  | Trades (trades : List Trade)
  | OrderbookData (orderbook : OrderbookData)
  | Fill (fill : Fill)
  | Ticker (ticker : Ticker)
  | Order (order : Order)
deriving DecidableEq

/-- `WsResponse`: a decoded inbound frame — a message kind, an optional
market and an optional payload. -/
structure WsResponse where
  type : WsMessageType
  market : Option Symbol
  data : Option WsResponseData
deriving DecidableEq

/-- `EventData`: one demultiplexed event delivered to the consumer. -/
inductive EventData where
  | Trade (trade : Trade)
  | OrderbookData (orderbook : OrderbookData)
  | Fill (fill : Fill)
  | Ticker (ticker : Ticker)
  | Order (order : Order)
deriving DecidableEq

/-- `WsError`: the error kinds of `error.rs` that the session logic produces
(`Tungstenite` stands for any transport error, `Json` for a decode error). -/
inductive WsError where
  | SocketNotAuthenticated
  | NotSubscribedToThisChannel (channel : WsChannel)
  | MissingSubscriptionConfirmation
  | Tungstenite
  | Json
deriving DecidableEq

/-- A wire message sent by the client. -/
inductive OutMsg where
  | login (key sign : String) (time : Nat) (subaccount : Option String)
  | ping
  | request (op : String) (channel : String) (market : String)
deriving DecidableEq

/-- An inbound WebSocket frame as seen by the `tokio::select!` loop of
`next_response`: a text frame carries its decode result (`none` = JSON
decode error); `transportError` is a failed `stream.next()` item. -/
inductive Message where
  | text (decoded : Option WsResponse)
  | binary
  | ping
  | pong
  | close
deriving DecidableEq

/-- Whether a frame is a text frame (the only kind `next_response` decodes). -/
def Message.isText : Message → Bool
  | .text _ => true
  | _ => false

/-- One item observed by the `tokio::select!` race in `next_response`:
either the 15-second ping timer fires, or the socket yields a frame or a
transport error. -/
inductive Inbound where
  | tick
  | transportError
  | frame (msg : Message)
deriving DecidableEq

/-- The session state of `FtxWebsocket`: active channels, pending event
buffer, authentication flag, plus the explicit model of the socket — the
inbound items still to arrive and the wire messages sent so far. -/
structure WsState where
  channels : List WsChannel
  buf : List (Option Symbol × EventData)
  is_authenticated : Bool
  inbound : List Inbound
  sent : List OutMsg
deriving DecidableEq

/-- Outcome of running one session operation: success or error with the
final state, or `blocked` — the Rust future suspends forever because no
further inbound item exists (not a return). -/
inductive RunResult (α : Type) where
  | ok (a : α) (s : WsState)
  | err (e : WsError) (s : WsState)
  | blocked (s : WsState)
deriving DecidableEq

/-- The state carried by an outcome. -/
def RunResult.state {α : Type} : RunResult α → WsState
  | .ok _ s => s
  | .err _ s => s
  | .blocked s => s

/-- Whether the outcome is an error return. -/
def RunResult.isErr {α : Type} : RunResult α → Bool
  | .err _ _ => true
  | _ => false

/-- The select-race loop of `next_response`, over the pending inbound items:
a timer tick sends a ping and loops; a transport or decode error aborts; a
`Pong` response or a non-text frame is consumed silently; the first other
decoded response is returned. Yields the outcome, the pings sent, and the
remaining inbound items. -/
inductive Fetched where
  | got (r : WsResponse)
  | fail (e : WsError)
  | starved
deriving DecidableEq

def fetchLoop : List Inbound → Fetched × List OutMsg × List Inbound
  | [] => (.starved, [], [])
  | .tick :: rest =>
    let (f, pings, rem) := fetchLoop rest
    (f, .ping :: pings, rem)
  | .transportError :: rest => (.fail .Tungstenite, [], rest)
  | .frame (.text none) :: rest => (.fail .Json, [], rest)
  | .frame (.text (some r)) :: rest =>
    if r.type = .Pong then fetchLoop rest else (.got r, [], rest)
  | .frame .binary :: rest => fetchLoop rest
  | .frame .ping :: rest => fetchLoop rest
  | .frame .pong :: rest => fetchLoop rest
  | .frame .close :: rest => fetchLoop rest

/-- `FtxWebsocket::next_response`: fetch the next classified non-pong
response, sending keepalive pings whenever the timer branch wins the race. -/
def next_response (s : WsState) : RunResult WsResponse :=
  match fetchLoop s.inbound with
  | (.got r, pings, rem) => .ok r { s with inbound := rem, sent := s.sent ++ pings }
  | (.fail e, pings, rem) => .err e { s with inbound := rem, sent := s.sent ++ pings }
  | (.starved, pings, rem) => .blocked { s with inbound := rem, sent := s.sent ++ pings }

/-- `FtxWebsocket::add_to_buffer`: demultiplex one response into the pending
buffer — one event per trade of a trade list, one event for the other
payload kinds, nothing when there is no payload. -/
def add_to_buffer (s : WsState) (response : WsResponse) : WsState :=
  match response.data with
  | none => s
  | some d =>
    match d with
    | .Trades trades =>
      { s with buf := s.buf ++ trades.map (fun t => (response.market, EventData.Trade t)) }
    | .OrderbookData orderbook =>
      { s with buf := s.buf ++ [(response.market, EventData.OrderbookData orderbook)] }
    | .Fill fill =>
      { s with buf := s.buf ++ [(response.market, EventData.Fill fill)] }
    | .Ticker ticker =>
      { s with buf := s.buf ++ [(response.market, EventData.Ticker ticker)] }
    | .Order order =>
      { s with buf := s.buf ++ [(response.market, EventData.Order order)] }

/-- The wire tag and market string of a channel, as in
`subscribe_or_unsubscribe` (account channels use the empty market). -/
def channelWire : WsChannel → String × String
  | .Orderbook symbol => ("orderbook", symbol)
  | .Trades symbol => ("trades", symbol)
  | .Ticker symbol => ("ticker", symbol)
  | .Fills => ("fills", "")
  | .Orders => ("orders", "")

/-- The subscribe/unsubscribe control message sent for one channel. -/
def requestMsg (sub : Bool) (c : WsChannel) : OutMsg :=
  .request (if sub then "subscribe" else "unsubscribe") (channelWire c).1 (channelWire c).2

/-- The acknowledgement guard of the confirmation loop: `Subscribed` matches
a subscribe request, `Unsubscribed` an unsubscribe request; everything else
is buffered. Only the message kind is inspected. -/
def isAck (sub : Bool) (r : WsResponse) : Bool :=
  match r.type, sub with
  | .Subscribed, true => true
  | .Unsubscribed, false => true
  | _, _ => false

/-- The `for _ in 0..100` confirmation loop: read responses until an
acknowledgement of the expected kind arrives, buffering every other
response; after `fuel` non-acknowledgements fail with
`MissingSubscriptionConfirmation`. -/
def awaitAck (sub : Bool) : Nat → WsState → RunResult Unit
  | 0, s => .err .MissingSubscriptionConfirmation s
  | fuel + 1, s =>
    match next_response s with
    | .ok r s' =>
      if isAck sub r then .ok () s' else awaitAck sub fuel (add_to_buffer s' r)
    | .err e s' => .err e s'
    | .blocked s' => .blocked s'

/-- `FtxWebsocket::subscribe_or_unsubscribe`: for each channel in order,
send the request and run the 100-response confirmation loop. -/
def subscribe_or_unsubscribe : List WsChannel → Bool → WsState → RunResult Unit
  | [], _, s => .ok () s
  | c :: cs, sub, s =>
    match awaitAck sub 100 { s with sent := s.sent ++ [requestMsg sub c] } with
    | .ok _ s' => subscribe_or_unsubscribe cs sub s'
    | .err e s' => .err e s'
    | .blocked s' => .blocked s'

/-- The authorization test of `subscribe`: `Fills` and `Orders` require an
authenticated session. -/
def requiresAuth (c : WsChannel) : Bool :=
  c == .Fills || c == .Orders

/-- The first loop of `subscribe`: walk the requested channels, failing with
`SocketNotAuthenticated` at the first privileged channel of an
unauthenticated session, pushing each earlier channel onto the active list. -/
def pushChannels : List WsChannel → WsState → Option WsError × WsState
  | [], s => (none, s)
  | c :: cs, s =>
    if requiresAuth c && !s.is_authenticated then
      (some .SocketNotAuthenticated, s)
    else
      pushChannels cs { s with channels := s.channels ++ [c] }

/-- `FtxWebsocket::subscribe`. -/
def subscribe (channels : List WsChannel) (s : WsState) : RunResult Unit :=
  match pushChannels channels s with
  | (some e, s') => .err e s'
  | (none, s') => subscribe_or_unsubscribe channels true s'

/-- `FtxWebsocket::unsubscribe`: fail with `NotSubscribedToThisChannel` at
the first requested channel not in the active list; otherwise run the
unsubscribe protocol and, on success, retain only the channels not named in
the request. -/
def unsubscribe (channels : List WsChannel) (s : WsState) : RunResult Unit :=
  match channels.find? (fun c => !(s.channels.contains c)) with
  | some c => .err (.NotSubscribedToThisChannel c) s
  | none =>
    match subscribe_or_unsubscribe channels false s with
    | .ok _ s' => .ok () { s' with channels := s'.channels.filter (fun c => !(channels.contains c)) }
    | .err e s' => .err e s'
    | .blocked s' => .blocked s'

/-- `FtxWebsocket::unsubscribe_all`: unsubscribe the snapshot of the active
channels, then clear the list. -/
def unsubscribe_all (s : WsState) : RunResult Unit :=
  match unsubscribe s.channels s with
  | .ok _ s' => .ok () { s' with channels := [] }
  | .err e s' => .err e s'
  | .blocked s' => .blocked s'

/-- The events one response contributes to the pending buffer (the effect of
`add_to_buffer`, factored out). -/
def eventsOf (r : WsResponse) : List (Option Symbol × EventData) :=
  match r.data with
  | none => []
  | some (.Trades trades) => trades.map (fun t => (r.market, EventData.Trade t))
  | some (.OrderbookData orderbook) => [(r.market, EventData.OrderbookData orderbook)]
  | some (.Fill fill) => [(r.market, EventData.Fill fill)]
  | some (.Ticker ticker) => [(r.market, EventData.Ticker ticker)]
  | some (.Order order) => [(r.market, EventData.Order order)]

/-! ## Helper lemmas -/

/-- `add_to_buffer` appends exactly the events of the response. -/
theorem add_to_buffer_eq (s : WsState) (r : WsResponse) :
    add_to_buffer s r = { s with buf := s.buf ++ eventsOf r } := by
  cases h : r.data with
  | none => simp [add_to_buffer, eventsOf, h]
  | some d => cases d <;> simp [add_to_buffer, eventsOf, h]

/-- A response returned by `fetchLoop` is never a `Pong`. -/
theorem fetchLoop_got_nonpong :
    ∀ (l : List Inbound) (r : WsResponse) (pings : List OutMsg) (rem : List Inbound),
    fetchLoop l = (.got r, pings, rem) → r.type ≠ .Pong := by
  intro l
  induction l with
  | nil => intro r pings rem h; simp [fetchLoop] at h
  | cons i rest ih =>
    intro r pings rem h
    match i with
    | .tick =>
      simp only [fetchLoop] at h
      rcases hf : fetchLoop rest with ⟨f, pings', rem'⟩
      rw [hf] at h
      cases f with
      | got r'' =>
        simp only [Prod.mk.injEq, Fetched.got.injEq] at h
        exact h.1 ▸ ih r'' pings' rem' hf
      | fail e => simp at h
      | starved => simp at h
    | .transportError => simp [fetchLoop] at h
    | .frame (.text none) => simp [fetchLoop] at h
    | .frame (.text (some r')) =>
      by_cases hp : r'.type = .Pong
      · simp only [fetchLoop, if_pos hp] at h
        exact ih r pings rem h
      · simp only [fetchLoop, if_neg hp] at h
        obtain ⟨h1, _, _⟩ := Prod.mk.injEq .. ▸ h
        cases h1; exact hp
    | .frame .binary => simp only [fetchLoop] at h; exact ih r pings rem h
    | .frame .ping => simp only [fetchLoop] at h; exact ih r pings rem h
    | .frame .pong => simp only [fetchLoop] at h; exact ih r pings rem h
    | .frame .close => simp only [fetchLoop] at h; exact ih r pings rem h

/-- `next_response` only changes the `inbound` and `sent` fields. -/
theorem next_response_fields (s : WsState) :
    (next_response s).state.channels = s.channels ∧
    (next_response s).state.buf = s.buf ∧
    (next_response s).state.is_authenticated = s.is_authenticated := by
  unfold next_response
  rcases fetchLoop s.inbound with ⟨f, pings, rem⟩
  cases f <;> simp [RunResult.state]

/-- `add_to_buffer` only changes the `buf` field. -/
theorem add_to_buffer_fields (s : WsState) (r : WsResponse) :
    (add_to_buffer s r).channels = s.channels ∧
    (add_to_buffer s r).inbound = s.inbound ∧
    (add_to_buffer s r).sent = s.sent ∧
    (add_to_buffer s r).is_authenticated = s.is_authenticated := by
  rw [add_to_buffer_eq]; simp

/-- The confirmation loop never touches the active channel list. -/
theorem awaitAck_channels (sub : Bool) :
    ∀ (fuel : Nat) (s : WsState), (awaitAck sub fuel s).state.channels = s.channels := by
  intro fuel
  induction fuel with
  | zero => intro s; simp [awaitAck, RunResult.state]
  | succ n ih =>
    intro s
    simp only [awaitAck]
    cases hn : next_response s with
    | ok r s' =>
      have hc : s'.channels = s.channels := by
        have := (next_response_fields s).1
        rw [hn] at this; exact this
      by_cases ha : isAck sub r
      · simp [ha, RunResult.state, hc]
      · simp only [ha, Bool.false_eq_true, if_false]
        rw [ih (add_to_buffer s' r)]
        rw [(add_to_buffer_fields s' r).1, hc]
    | err e s' =>
      have := (next_response_fields s).1
      rw [hn] at this
      simpa [RunResult.state] using this
    | blocked s' =>
      have := (next_response_fields s).1
      rw [hn] at this
      simpa [RunResult.state] using this

/-- The confirmation loop preserves the authentication flag. -/
theorem awaitAck_auth (sub : Bool) :
    ∀ (fuel : Nat) (s : WsState),
    (awaitAck sub fuel s).state.is_authenticated = s.is_authenticated := by
  intro fuel
  induction fuel with
  | zero => intro s; simp [awaitAck, RunResult.state]
  | succ n ih =>
    intro s
    simp only [awaitAck]
    cases hn : next_response s with
    | ok r s' =>
      have hc : s'.is_authenticated = s.is_authenticated := by
        have := (next_response_fields s).2.2
        rw [hn] at this; exact this
      by_cases ha : isAck sub r
      · simp [ha, RunResult.state, hc]
      · simp only [ha, Bool.false_eq_true, if_false]
        rw [ih (add_to_buffer s' r)]
        rw [(add_to_buffer_fields s' r).2.2.2, hc]
    | err e s' =>
      have := (next_response_fields s).2.2
      rw [hn] at this
      simpa [RunResult.state] using this
    | blocked s' =>
      have := (next_response_fields s).2.2
      rw [hn] at this
      simpa [RunResult.state] using this

/-- `subscribe_or_unsubscribe` never touches the active channel list:
whatever the outcome, the channels field of the final state equals the
initial one. -/
theorem subscribe_or_unsubscribe_channels :
    ∀ (req : List WsChannel) (sub : Bool) (s : WsState),
    (subscribe_or_unsubscribe req sub s).state.channels = s.channels := by
  intro req
  induction req with
  | nil => intro sub s; simp [subscribe_or_unsubscribe, RunResult.state]
  | cons c cs ih =>
    intro sub s
    simp only [subscribe_or_unsubscribe]
    cases ha : awaitAck sub 100 { s with sent := s.sent ++ [requestMsg sub c] } with
    | ok u s' =>
      have hc : s'.channels = s.channels := by
        have := awaitAck_channels sub 100 { s with sent := s.sent ++ [requestMsg sub c] }
        rw [ha] at this
        simpa [RunResult.state] using this
      rw [ih sub s', hc]
    | err e s' =>
      have := awaitAck_channels sub 100 { s with sent := s.sent ++ [requestMsg sub c] }
      rw [ha] at this
      simpa [RunResult.state] using this
    | blocked s' =>
      have := awaitAck_channels sub 100 { s with sent := s.sent ++ [requestMsg sub c] }
      rw [ha] at this
      simpa [RunResult.state] using this

/-- When the next inbound item is a text frame decoding to a non-pong
response, `next_response` returns it, consuming exactly that item. -/
theorem next_response_cons_text (s : WsState) (r : WsResponse) (rest : List Inbound)
    (hin : s.inbound = .frame (.text (some r)) :: rest) (hp : r.type ≠ .Pong) :
    next_response s = .ok r { s with inbound := rest } := by
  unfold next_response
  rw [hin]
  simp [fetchLoop, hp]

/-- When the next inbound item is a text frame decoding to a `Pong`,
`next_response` consumes it and behaves as if it were absent. -/
theorem next_response_skip_pong (s : WsState) (r : WsResponse) (rest : List Inbound)
    (hin : s.inbound = .frame (.text (some r)) :: rest) (hp : r.type = .Pong) :
    next_response s = next_response { s with inbound := rest } := by
  unfold next_response
  rw [hin]
  simp only [fetchLoop, if_pos hp]

/-- When the next inbound item is a non-text frame, `next_response` consumes
it silently and behaves as if it were absent. -/
theorem next_response_skip_nontext (s : WsState) (m : Message) (rest : List Inbound)
    (hin : s.inbound = .frame m :: rest) (hm : m.isText = false) :
    next_response s = next_response { s with inbound := rest } := by
  unfold next_response
  rw [hin]
  cases m with
  | text d => simp [Message.isText] at hm
  | binary => simp only [fetchLoop]
  | ping => simp only [fetchLoop]
  | pong => simp only [fetchLoop]
  | close => simp only [fetchLoop]

/-- Running the confirmation loop against a run of non-acknowledgement,
non-pong responses exhausts its fuel, appends every observed response's
events to the buffer in arrival order, and fails with
`MissingSubscriptionConfirmation`, leaving later inbound items unread. -/
theorem awaitAck_nonack_run (sub : Bool) :
    ∀ (rs : List WsResponse) (s : WsState) (rest : List Inbound),
    (∀ r ∈ rs, isAck sub r = false ∧ r.type ≠ WsMessageType.Pong) →
    s.inbound = rs.map (fun r => Inbound.frame (.text (some r))) ++ rest →
    awaitAck sub rs.length s =
      .err .MissingSubscriptionConfirmation
        { s with inbound := rest, buf := s.buf ++ (rs.map eventsOf).flatten } := by
  intro rs
  induction rs with
  | nil =>
    intro s rest hall hin
    simp only [List.length_nil, awaitAck, List.map_nil, List.flatten_nil, List.append_nil]
    simp only [List.map_nil, List.nil_append] at hin
    rw [← hin]
  | cons r rs ih =>
    intro s rest hall hin
    have hr := hall r (by simp)
    simp only [List.length_cons, awaitAck]
    rw [next_response_cons_text s r (rs.map (fun r => Inbound.frame (.text (some r))) ++ rest)
      (by simpa using hin) hr.2]
    simp only [hr.1, Bool.false_eq_true, if_false]
    rw [add_to_buffer_eq]
    have hstep := ih
        { channels := s.channels
          buf := s.buf ++ eventsOf r
          is_authenticated := s.is_authenticated
          inbound := rs.map (fun r => Inbound.frame (.text (some r))) ++ rest
          sent := s.sent } rest
        (fun x hx => hall x (by simp [hx])) rfl
    exact hstep.trans (by simp [List.append_assoc])

/-- When every privileged channel of the request is covered by an
authenticated session, the first `subscribe` loop appends the whole request
to the active list and reports no error. -/
theorem pushChannels_ok :
    ∀ (req : List WsChannel) (s : WsState),
    (∀ c ∈ req, requiresAuth c = true → s.is_authenticated = true) →
    pushChannels req s = (none, { s with channels := s.channels ++ req }) := by
  intro req
  induction req with
  | nil => intro s h; simp [pushChannels]
  | cons c cs ih =>
    intro s h
    have hc : (requiresAuth c && !s.is_authenticated) = false := by
      by_cases hr : requiresAuth c = true
      · simp [hr, h c (by simp) hr]
      · simp [Bool.eq_false_iff.mpr hr]
    simp only [pushChannels, hc, Bool.false_eq_true, if_false]
    rw [ih { s with channels := s.channels ++ [c] } (fun x hx hreq => h x (by simp [hx]) hreq)]
    simp [List.append_assoc]

/-- On an unauthenticated session, a request containing a privileged channel
makes the first `subscribe` loop fail with `SocketNotAuthenticated` — but
only after appending every channel preceding the first privileged one. -/
theorem pushChannels_unauth :
    ∀ (req : List WsChannel) (s : WsState),
    s.is_authenticated = false →
    (∃ c ∈ req, requiresAuth c = true) →
    pushChannels req s =
      (some .SocketNotAuthenticated,
       { s with channels := s.channels ++ req.takeWhile (fun c => !(requiresAuth c)) }) := by
  intro req
  induction req with
  | nil => intro s hauth h; simp at h
  | cons c cs ih =>
    intro s hauth h
    by_cases hc : requiresAuth c = true
    · simp only [pushChannels, hc, hauth, Bool.not_false, Bool.and_self, if_true]
      simp only [List.takeWhile_cons, hc, Bool.not_true, Bool.false_eq_true, if_false,
        List.append_nil, Prod.mk.injEq, true_and]
      rw [← hauth]
    · have hcons : (requiresAuth c && !s.is_authenticated) = false := by
        simp [Bool.eq_false_iff.mpr hc]
      simp only [pushChannels, hcons, Bool.false_eq_true, if_false]
      obtain ⟨x, hx, hxa⟩ := h
      have hx' : x ∈ cs := by
        rcases List.mem_cons.mp hx with h1 | h1
        · exact absurd (h1 ▸ hxa) hc
        · exact h1
      rw [ih { s with channels := s.channels ++ [c] } hauth ⟨x, hx', hxa⟩]
      simp [List.takeWhile_cons, hc, List.append_assoc, Bool.eq_false_iff.mpr hc]

/-- How `unsubscribe` updates the active list, by outcome: removal of the
requested channels happens only on success; every error or suspension
leaves the active list exactly as it was. -/
theorem unsubscribe_channels_cases (req : List WsChannel) (s : WsState) :
    (∀ (u : Unit) (s' : WsState), unsubscribe req s = .ok u s' →
       s'.channels = s.channels.filter (fun c => !(req.contains c))) ∧
    (∀ (e : WsError) (s' : WsState), unsubscribe req s = .err e s' →
       s'.channels = s.channels) ∧
    (∀ (s' : WsState), unsubscribe req s = .blocked s' → s'.channels = s.channels) := by
  unfold unsubscribe
  cases hf : req.find? (fun c => !(s.channels.contains c)) with
  | some c =>
    refine ⟨?_, ?_, ?_⟩
    · intro u s' h; simp at h
    · intro e s' h
      simp only [RunResult.err.injEq] at h
      rw [← h.2]
    · intro s' h; simp at h
  | none =>
    have hsub := subscribe_or_unsubscribe_channels req false s
    cases hs : subscribe_or_unsubscribe req false s with
    | ok u s1 =>
      rw [hs] at hsub
      simp only [RunResult.state] at hsub
      refine ⟨?_, ?_, ?_⟩
      · intro u' s' h
        simp only [RunResult.ok.injEq] at h
        rw [← h.2, hsub]
      · intro e s' h; simp at h
      · intro s' h; simp at h
    | err e s1 =>
      rw [hs] at hsub
      simp only [RunResult.state] at hsub
      refine ⟨?_, ?_, ?_⟩
      · intro u' s' h; simp at h
      · intro e' s' h
        simp only [RunResult.err.injEq] at h
        rw [← h.2, hsub]
      · intro s' h; simp at h
    | blocked s1 =>
      rw [hs] at hsub
      simp only [RunResult.state] at hsub
      refine ⟨?_, ?_, ?_⟩
      · intro u' s' h; simp at h
      · intro e' s' h; simp at h
      · intro s' h
        simp only [RunResult.blocked.injEq] at h
        rw [← h, hsub]

/-- With every privileged channel authorized, `subscribe` appends the whole
request to the active list, whatever the outcome of the protocol. -/
theorem subscribe_channels_append (req : List WsChannel) (s : WsState)
    (hauth : ∀ c ∈ req, requiresAuth c = true → s.is_authenticated = true) :
    (subscribe req s).state.channels = s.channels ++ req := by
  unfold subscribe
  rw [pushChannels_ok req s hauth]
  exact subscribe_or_unsubscribe_channels req true { s with channels := s.channels ++ req }

/-- A convenient initial session state. -/
def mkState (channels : List WsChannel) (auth : Bool) (inbound : List Inbound) : WsState :=
  { channels := channels, buf := [], is_authenticated := auth, inbound := inbound, sent := [] }

/-! ## Claims -/

/-- C1 (amended): on an unauthenticated session, a subscribe batch
containing `Fills` or `Orders` fails with `SocketNotAuthenticated` before
any wire message is sent (`sent`, `buf` and `inbound` are untouched), but
the channels of the batch strictly preceding the first privileged one have
already been appended to the active set. -/
theorem subscribe_unauthenticated_fails :
    ∀ (req : List WsChannel) (s : WsState),
    s.is_authenticated = false →
    (∃ c ∈ req, requiresAuth c = true) →
    subscribe req s =
      .err .SocketNotAuthenticated
        { s with channels := s.channels ++ req.takeWhile (fun c => !(requiresAuth c)) } := by
  intro req s hauth hex
  unfold subscribe
  rw [pushChannels_unauth req s hauth hex]

/-- C1 counterexample: subscribing to `[Trades "BTC-PERP", Fills]` on an
unauthenticated session fails with `SocketNotAuthenticated`, yet the active
set is no longer what it was before the call — `Trades "BTC-PERP"` has been
appended. -/
theorem subscribe_unauthenticated_cex :
    subscribe [WsChannel.Trades "BTC-PERP", WsChannel.Fills] (mkState [] false []) =
      .err .SocketNotAuthenticated (mkState [WsChannel.Trades "BTC-PERP"] false []) ∧
    (subscribe [WsChannel.Trades "BTC-PERP", WsChannel.Fills]
        (mkState [] false [])).state.channels ≠ (mkState [] false []).channels := by
  decide

/-- C1 witness. -/
theorem subscribe_unauthenticated_fails_witness :
    subscribe [WsChannel.Orderbook "ETH-PERP", WsChannel.Orders] (mkState [] false []) =
      .err .SocketNotAuthenticated
        { mkState [] false [] with
          channels := (mkState [] false []).channels ++
            ([WsChannel.Orderbook "ETH-PERP", WsChannel.Orders].takeWhile
              (fun c => !(requiresAuth c))) } :=
  subscribe_unauthenticated_fails [WsChannel.Orderbook "ETH-PERP", WsChannel.Orders]
    (mkState [] false []) rfl ⟨WsChannel.Orders, by decide, rfl⟩

/-- C3: the active-set update is asymmetric. `subscribe` appends the whole
request before any acknowledgement is awaited, so the final state of every
outcome, including `MissingSubscriptionConfirmation`, carries the appended
channels; `unsubscribe` removes the requested channels only on a fully
successful batch, and every error or suspension leaves the set unchanged. -/
theorem subscribe_unsubscribe_asymmetric :
    (∀ (req : List WsChannel) (s : WsState),
       (∀ c ∈ req, requiresAuth c = true → s.is_authenticated = true) →
       (subscribe req s).state.channels = s.channels ++ req) ∧
    (∀ (req : List WsChannel) (s : WsState) (e : WsError) (s' : WsState),
       unsubscribe req s = .err e s' → s'.channels = s.channels) ∧
    (∀ (req : List WsChannel) (s s' : WsState),
       unsubscribe req s = .blocked s' → s'.channels = s.channels) ∧
    (∀ (req : List WsChannel) (s : WsState) (u : Unit) (s' : WsState),
       unsubscribe req s = .ok u s' →
       s'.channels = s.channels.filter (fun c => !(req.contains c))) := by
  refine ⟨subscribe_channels_append, ?_, ?_, ?_⟩
  · intro req s e s' h
    exact (unsubscribe_channels_cases req s).2.1 e s' h
  · intro req s s' h
    exact (unsubscribe_channels_cases req s).2.2 s' h
  · intro req s u s' h
    exact (unsubscribe_channels_cases req s).1 u s' h

/-- C3 witness. -/
theorem subscribe_unsubscribe_asymmetric_witness :
    (subscribe [WsChannel.Ticker "BTC-PERP"] (mkState [] false [])).state.channels =
      (mkState [] false []).channels ++ [WsChannel.Ticker "BTC-PERP"] :=
  subscribe_unsubscribe_asymmetric.1 [WsChannel.Ticker "BTC-PERP"] (mkState [] false [])
    (by decide)

/-- C6: if some requested channel is not active, `unsubscribe` fails with
`NotSubscribedToThisChannel` and returns the state completely unchanged: no
wire message is sent and neither the active set nor the buffer moves. -/
theorem unsubscribe_not_subscribed :
    ∀ (req : List WsChannel) (s : WsState),
    (∃ c ∈ req, s.channels.contains c = false) →
    ∃ c ∈ req, s.channels.contains c = false ∧
      unsubscribe req s = .err (.NotSubscribedToThisChannel c) s := by
  intro req s hex
  have hsome : (req.find? (fun c => !(s.channels.contains c))).isSome := by
    rw [List.find?_isSome]
    obtain ⟨c, hc, hcc⟩ := hex
    exact ⟨c, hc, by simpa using hcc⟩
  obtain ⟨c, hfind⟩ := Option.isSome_iff_exists.mp hsome
  refine ⟨c, List.mem_of_find?_eq_some hfind, ?_, ?_⟩
  · have := List.find?_some hfind
    simpa using this
  · unfold unsubscribe
    rw [hfind]

/-- C6 witness. -/
theorem unsubscribe_not_subscribed_witness :
    ∃ c ∈ [WsChannel.Fills], (mkState [] true []).channels.contains c = false ∧
      unsubscribe [WsChannel.Fills] (mkState [] true []) =
        .err (.NotSubscribedToThisChannel c) (mkState [] true []) :=
  unsubscribe_not_subscribed [WsChannel.Fills] (mkState [] true [])
    ⟨WsChannel.Fills, by decide, rfl⟩

/-- C7 (amended): every successful return of `unsubscribe_all` leaves the
active set empty, including when it was already empty (the final clear is
unconditional on the success path); on every error return the propagation
operator skips the clear, so the active set is left exactly as it was (and
likewise when the call suspends). -/
theorem unsubscribe_all_success_empties :
    (∀ (s : WsState) (u : Unit) (s' : WsState),
       unsubscribe_all s = .ok u s' → s'.channels = []) ∧
    (∀ (s : WsState), s.channels = [] →
       unsubscribe_all s = .ok () { s with channels := [] }) ∧
    (∀ (s : WsState) (e : WsError) (s' : WsState),
       unsubscribe_all s = .err e s' → s'.channels = s.channels) ∧
    (∀ (s s' : WsState),
       unsubscribe_all s = .blocked s' → s'.channels = s.channels) := by
  refine ⟨?_, ?_, ?_, ?_⟩
  · intro s u s' h
    unfold unsubscribe_all at h
    cases hs : unsubscribe s.channels s with
    | ok u1 s1 =>
      rw [hs] at h
      simp only [RunResult.ok.injEq] at h
      rw [← h.2]
    | err e s1 => rw [hs] at h; simp at h
    | blocked s1 => rw [hs] at h; simp at h
  · intro s hch
    unfold unsubscribe_all unsubscribe
    rw [hch]
    simp [subscribe_or_unsubscribe]
  · intro s e s' h
    unfold unsubscribe_all at h
    cases hs : unsubscribe s.channels s with
    | ok u1 s1 => rw [hs] at h; simp at h
    | err e1 s1 =>
      rw [hs] at h
      simp only [RunResult.err.injEq] at h
      rw [← h.2]
      exact (unsubscribe_channels_cases s.channels s).2.1 e1 s1 hs
    | blocked s1 => rw [hs] at h; simp at h
  · intro s s' h
    unfold unsubscribe_all at h
    cases hs : unsubscribe s.channels s with
    | ok u1 s1 => rw [hs] at h; simp at h
    | err e1 s1 => rw [hs] at h; simp at h
    | blocked s1 =>
      rw [hs] at h
      simp only [RunResult.blocked.injEq] at h
      rw [← h]
      exact (unsubscribe_channels_cases s.channels s).2.2 s1 hs

/-- C7 counterexample: with one active channel and a transport error on the
socket, `unsubscribe_all` returns an error and the active set is still
non-empty after the return. -/
theorem unsubscribe_all_error_cex :
    (unsubscribe_all (mkState [WsChannel.Ticker "BTC-PERP"] false
        [Inbound.transportError])).isErr = true ∧
    (unsubscribe_all (mkState [WsChannel.Ticker "BTC-PERP"] false
        [Inbound.transportError])).state.channels ≠ [] := by
  decide

/-- C7 witness: the empty-set success case, and error-path preservation at
the transport-error input of the counterexample. -/
theorem unsubscribe_all_success_empties_witness :
    (unsubscribe_all (mkState [] true []) = .ok () { mkState [] true [] with channels := [] }) ∧
    ({ mkState [WsChannel.Ticker "BTC-PERP"] false [Inbound.transportError] with
        inbound := ([] : List Inbound),
        sent := [requestMsg false (WsChannel.Ticker "BTC-PERP")] } : WsState).channels =
      (mkState [WsChannel.Ticker "BTC-PERP"] false [Inbound.transportError]).channels :=
  ⟨unsubscribe_all_success_empties.2.1 (mkState [] true []) rfl,
   unsubscribe_all_success_empties.2.2.1
     (mkState [WsChannel.Ticker "BTC-PERP"] false [Inbound.transportError]) .Tungstenite
     { mkState [WsChannel.Ticker "BTC-PERP"] false [Inbound.transportError] with
        inbound := ([] : List Inbound),
        sent := [requestMsg false (WsChannel.Ticker "BTC-PERP")] }
     (by decide)⟩

/-- C8: the confirmation loop matches an acknowledgement purely on its
message kind (`Subscribed` for subscribe, `Unsubscribed` for unsubscribe):
whatever market — or none at all — the response names, it terminates the
wait for the current channel at once. -/
theorem ack_matching_ignores_market :
    ∀ (sub : Bool) (r : WsResponse) (s s' : WsState) (fuel : Nat),
    next_response s = .ok r s' →
    isAck sub r = true →
    awaitAck sub (fuel + 1) s = .ok () s' := by
  intro sub r s s' fuel hn ha
  simp only [awaitAck, hn, ha, if_true]

/-- C8 witness: a `Subscribed` acknowledgement naming a completely
unrelated market still ends the wait. -/
theorem ack_matching_ignores_market_witness :
    awaitAck true 100
        (mkState [] true
          [Inbound.frame (.text (some ⟨.Subscribed, some "UNRELATED-MARKET", none⟩))]) =
      .ok ()
        { mkState [] true
            [Inbound.frame (.text (some ⟨.Subscribed, some "UNRELATED-MARKET", none⟩))] with
          inbound := [] } :=
  ack_matching_ignores_market true ⟨.Subscribed, some "UNRELATED-MARKET", none⟩ _ _ 99
    (by decide) rfl

/-- C9: `subscribe` performs no deduplication — subscribing to an already
active channel appends a second occurrence — and a successful `unsubscribe`
naming a channel removes every occurrence of it from the active set. -/
theorem subscribe_dup_unsubscribe_removes_all :
    (∀ (c : WsChannel) (s : WsState),
       c ∈ s.channels →
       (requiresAuth c = true → s.is_authenticated = true) →
       (subscribe [c] s).state.channels = s.channels ++ [c] ∧
       1 < ((subscribe [c] s).state.channels.count c)) ∧
    (∀ (req : List WsChannel) (c : WsChannel) (s : WsState) (u : Unit) (s' : WsState),
       unsubscribe req s = .ok u s' → c ∈ req → s'.channels.count c = 0) := by
  constructor
  · intro c s hmem hauth
    have happ := subscribe_channels_append [c] s
      (by intro x hx hreq; rw [List.mem_singleton.mp hx] at hreq; exact hauth hreq)
    refine ⟨happ, ?_⟩
    rw [happ]
    rw [List.count_append]
    have h1 : 0 < s.channels.count c := List.count_pos_iff.mpr hmem
    have h2 : List.count c [c] = 1 := by simp
    omega
  · intro req c s u s' h hc
    have := (unsubscribe_channels_cases req s).1 u s' h
    rw [this]
    rw [List.count_eq_zero]
    intro habs
    have := List.of_mem_filter habs
    simp at this
    exact this hc

/-- C9 witness: the session already subscribed to `Ticker "BTC-PERP"`
gains a duplicate entry, and one successful unsubscribe removes both. -/
theorem subscribe_dup_unsubscribe_removes_all_witness :
    (subscribe [WsChannel.Ticker "BTC-PERP"]
        (mkState [WsChannel.Ticker "BTC-PERP"] false [])).state.channels =
      [WsChannel.Ticker "BTC-PERP"] ++ [WsChannel.Ticker "BTC-PERP"] ∧
    ((mkState [] false []).channels.count (WsChannel.Ticker "BTC-PERP") = 0) ∧
    (unsubscribe [WsChannel.Ticker "BTC-PERP"]
        (mkState [WsChannel.Ticker "BTC-PERP", WsChannel.Ticker "BTC-PERP"] false
          [Inbound.frame (.text (some ⟨.Unsubscribed, none, none⟩))])).state.channels.count
        (WsChannel.Ticker "BTC-PERP") = 0 := by
  refine ⟨?_, by decide, ?_⟩
  · exact (subscribe_dup_unsubscribe_removes_all.1 (WsChannel.Ticker "BTC-PERP")
      (mkState [WsChannel.Ticker "BTC-PERP"] false []) (by decide) (by decide)).1
  · exact subscribe_dup_unsubscribe_removes_all.2 [WsChannel.Ticker "BTC-PERP"]
      (WsChannel.Ticker "BTC-PERP")
      (mkState [WsChannel.Ticker "BTC-PERP", WsChannel.Ticker "BTC-PERP"] false
        [Inbound.frame (.text (some ⟨.Unsubscribed, none, none⟩))]) ()
      { mkState [WsChannel.Ticker "BTC-PERP", WsChannel.Ticker "BTC-PERP"] false
          [Inbound.frame (.text (some ⟨.Unsubscribed, none, none⟩))] with
        channels := [], inbound := [],
        sent := [requestMsg false (WsChannel.Ticker "BTC-PERP")] }
      (by decide) (by decide)

/-- C10: the response-fetch primitive silently discards every non-text
frame (binary, ping, pong, close): the state behaves exactly as if the
frame were absent — no response, no buffered event, no error. -/
theorem nontext_frames_discarded :
    ∀ (s : WsState) (m : Message) (rest : List Inbound),
    s.inbound = Inbound.frame m :: rest →
    m.isText = false →
    next_response s = next_response { s with inbound := rest } := by
  intro s m rest hin hm
  exact next_response_skip_nontext s m rest hin hm

/-- C10 witness. -/
theorem nontext_frames_discarded_witness :
    next_response (mkState [] true [Inbound.frame .binary]) =
      next_response { mkState [] true [Inbound.frame .binary] with inbound := [] } :=
  nontext_frames_discarded (mkState [] true [Inbound.frame .binary]) .binary [] rfl rfl

/-- C4: `Pong` responses are pure protocol noise, fully consumed inside
`next_response`: a response returned by `next_response` — the only source
of responses for the buffer and the session stream — is never of kind
`Pong`, and a `Pong` at the head of the inbound items is consumed with no
effect whatsoever on the state (in particular nothing is buffered),
however many occur during one pull. -/
theorem pong_never_surfaced :
    (∀ (s : WsState) (r : WsResponse) (s' : WsState),
       next_response s = .ok r s' → r.type ≠ WsMessageType.Pong) ∧
    (∀ (s : WsState) (r : WsResponse) (rest : List Inbound),
       s.inbound = Inbound.frame (.text (some r)) :: rest → r.type = .Pong →
       next_response s = next_response { s with inbound := rest }) := by
  constructor
  · intro s r s' h
    unfold next_response at h
    rcases hf : fetchLoop s.inbound with ⟨f, pings, rem⟩
    rw [hf] at h
    cases f with
    | got r0 =>
      simp only [RunResult.ok.injEq] at h
      exact h.1 ▸ fetchLoop_got_nonpong s.inbound r0 pings rem hf
    | fail e => simp at h
    | starved => simp at h
  · intro s r rest hin hp
    exact next_response_skip_pong s r rest hin hp

/-- C4 witness: two consecutive pongs are swallowed in one pull. -/
theorem pong_never_surfaced_witness :
    next_response
        (mkState [] true
          [Inbound.frame (.text (some ⟨.Pong, none, none⟩)),
           Inbound.frame (.text (some ⟨.Pong, none, none⟩))]) =
      next_response
        { mkState [] true
            [Inbound.frame (.text (some ⟨.Pong, none, none⟩)),
             Inbound.frame (.text (some ⟨.Pong, none, none⟩))] with
          inbound := [Inbound.frame (.text (some ⟨.Pong, none, none⟩))] } :=
  pong_never_surfaced.2
    (mkState [] true
      [Inbound.frame (.text (some ⟨.Pong, none, none⟩)),
       Inbound.frame (.text (some ⟨.Pong, none, none⟩))])
    ⟨.Pong, none, none⟩ [Inbound.frame (.text (some ⟨.Pong, none, none⟩))] rfl rfl

/-- C5: the buffering step of one classified response. A trade-list payload
of `N` trades yields exactly the `N` events of the mapped list, in list
order, each tagged with the response's market; an orderbook, fill, ticker
or order payload yields exactly one tagged event; a response without a
payload yields nothing. In every case the new events go to the back of the
pending buffer. -/
theorem add_to_buffer_classification :
    ∀ (s : WsState) (ty : WsMessageType) (mkt : Option Symbol),
    (∀ (trades : List Trade),
       add_to_buffer s ⟨ty, mkt, some (.Trades trades)⟩ =
         { s with buf := s.buf ++ trades.map (fun t => (mkt, EventData.Trade t)) }) ∧
    (∀ (orderbook : OrderbookData),
       add_to_buffer s ⟨ty, mkt, some (.OrderbookData orderbook)⟩ =
         { s with buf := s.buf ++ [(mkt, EventData.OrderbookData orderbook)] }) ∧
    (∀ (fill : Fill),
       add_to_buffer s ⟨ty, mkt, some (.Fill fill)⟩ =
         { s with buf := s.buf ++ [(mkt, EventData.Fill fill)] }) ∧
    (∀ (ticker : Ticker),
       add_to_buffer s ⟨ty, mkt, some (.Ticker ticker)⟩ =
         { s with buf := s.buf ++ [(mkt, EventData.Ticker ticker)] }) ∧
    (∀ (order : Order),
       add_to_buffer s ⟨ty, mkt, some (.Order order)⟩ =
         { s with buf := s.buf ++ [(mkt, EventData.Order order)] }) ∧
    add_to_buffer s ⟨ty, mkt, none⟩ = s := by
  intro s ty mkt
  exact ⟨fun _ => rfl, fun _ => rfl, fun _ => rfl, fun _ => rfl, fun _ => rfl, rfl⟩

/-- C2: the confirmation wait is bounded. `subscribe_or_unsubscribe` never
touches the active channel list, so channels of the batch confirmed before
a failure stay put; and when the 100 responses after a request are all
non-acknowledgements, the call sends exactly the one request, reads exactly
those 100 responses — leaving later inbound items unread — appends all
their demultiplexed events to the pending buffer in arrival order, and
fails with `MissingSubscriptionConfirmation`. -/
theorem missing_confirmation_bounded :
    (∀ (req : List WsChannel) (sub : Bool) (s : WsState),
       (subscribe_or_unsubscribe req sub s).state.channels = s.channels) ∧
    (∀ (c : WsChannel) (cs : List WsChannel) (sub : Bool) (s : WsState)
       (rs : List WsResponse) (rest : List Inbound),
       rs.length = 100 →
       (∀ r ∈ rs, isAck sub r = false ∧ r.type ≠ WsMessageType.Pong) →
       s.inbound = rs.map (fun r => Inbound.frame (.text (some r))) ++ rest →
       subscribe_or_unsubscribe (c :: cs) sub s =
         .err .MissingSubscriptionConfirmation
           { s with sent := s.sent ++ [requestMsg sub c],
                    inbound := rest,
                    buf := s.buf ++ (rs.map eventsOf).flatten }) := by
  refine ⟨subscribe_or_unsubscribe_channels, ?_⟩
  intro c cs sub s rs rest hlen hall hin
  simp only [subscribe_or_unsubscribe]
  have h1 : awaitAck sub 100 { s with sent := s.sent ++ [requestMsg sub c] } =
      .err .MissingSubscriptionConfirmation
        { s with sent := s.sent ++ [requestMsg sub c], inbound := rest,
                 buf := s.buf ++ (rs.map eventsOf).flatten } := by
    rw [← hlen]
    exact awaitAck_nonack_run sub rs { s with sent := s.sent ++ [requestMsg sub c] } rest
      hall hin
  rw [h1]

/-- C2 witness: one channel, 100 `Update` responses (the first carrying a
two-trade payload) and one extra unread item; the call fails with
`MissingSubscriptionConfirmation`, both trades are in the buffer in order,
and the extra item is unread. -/
theorem missing_confirmation_bounded_witness :
    subscribe_or_unsubscribe [WsChannel.Trades "BTC-PERP"] true
        (mkState [] true
          (((⟨.Update, some "BTC-PERP", some (.Trades [⟨1⟩, ⟨2⟩])⟩ ::
              List.replicate 99 (⟨.Update, some "BTC-PERP", none⟩ : WsResponse)).map
            (fun r => Inbound.frame (.text (some r)))) ++ [Inbound.transportError])) =
      .err .MissingSubscriptionConfirmation
        { mkState [] true
            (((⟨.Update, some "BTC-PERP", some (.Trades [⟨1⟩, ⟨2⟩])⟩ ::
                List.replicate 99 (⟨.Update, some "BTC-PERP", none⟩ : WsResponse)).map
              (fun r => Inbound.frame (.text (some r)))) ++ [Inbound.transportError]) with
          sent := (mkState [] true []).sent ++ [requestMsg true (WsChannel.Trades "BTC-PERP")],
          inbound := [Inbound.transportError],
          buf := (mkState [] true []).buf ++
            (((⟨.Update, some "BTC-PERP", some (.Trades [⟨1⟩, ⟨2⟩])⟩ ::
                List.replicate 99 (⟨.Update, some "BTC-PERP", none⟩ : WsResponse)).map
              eventsOf).flatten) } :=
  missing_confirmation_bounded.2 (WsChannel.Trades "BTC-PERP") [] true _
    (⟨.Update, some "BTC-PERP", some (.Trades [⟨1⟩, ⟨2⟩])⟩ ::
      List.replicate 99 (⟨.Update, some "BTC-PERP", none⟩ : WsResponse))
    [Inbound.transportError] (by decide) (by decide) rfl

end FtxWs
